import Mathlib

/-
Verification of the autopilot execution pipeline of the vibe_hub repository:
a shallow embedding of the job queue (app/job_queue.py), the worker loop
(app/job_worker.py), the git workspace manager change application
(app/git_ops.py) and the orchestration engine (app/orchestration.py),
together with theorems settling the specification claims.

The database is modelled as a list of job rows; SQL bulk updates become
maps over the list and rowcounts become countP.  Timestamps are integers,
Python exceptions are Except values, and Python attribute lookup on the
provider dataclasses is made explicit where the source depends on it.
-/

set_option autoImplicit false

namespace VibeHub

/-! ## String helpers (structural forms of the Python string operations) -/

/-- Structural split of a character list on a separator predicate, keeping
empty segments like Python str.split / re.split do. -/
def splitCharsOnPred (p : Char → Bool) : List Char → List (List Char)
  | [] => [[]]
  | c :: rest =>
    let r := splitCharsOnPred p rest
    if p c then [] :: r
    else
      match r with
      | [] => [[c]]
      | s :: ss => (c :: s) :: ss

/-- Split a string on a character predicate. -/
def pySplit (s : String) (p : Char → Bool) : List String :=
  (splitCharsOnPred p s.data).map (fun cs => ⟨cs⟩)

/-- Python string slicing s[:n], counted in code points. -/
def pyTake (s : String) (n : Nat) : String := ⟨s.data.take n⟩

/-- Does the string end with a line feed? -/
def endsWithLf (s : String) : Bool := s.data.getLast? == some '\n'

/-! ## Job queue data model (app/models.py, AutopilotJob) -/

/-- Embedding of models.JobStatus. -/
inductive JobStatus where
  | queued
  | running
  | completed
  | failed
  | canceled
  deriving DecidableEq, Repr

/-- Embedding of the models.AutopilotJob row.  Column defaults from the ORM
model: attempts 0, processed_items 0, created_prs 0, merged_prs 0,
merged_pr_ids_json "[]", error_message "". -/
structure Job where
  id : Nat
  projectId : Nat
  status : JobStatus
  maxItems : Nat
  provider : Option String
  requestedBy : String
  attempts : Nat
  maxAttempts : Nat
  workerId : Option String
  startedAt : Option Int
  finishedAt : Option Int
  canceledAt : Option Int
  processedItems : Nat
  createdPrs : Nat
  mergedPrs : Nat
  mergedPrIdsJson : String
  errorMessage : String
  createdAt : Int
  updatedAt : Int
  deriving DecidableEq, Repr

/-- The job table: a list of rows. -/
abbrev JobStore := List Job

/-- A fresh autoincrement primary key: strictly larger than every id in the store. -/
def freshId (st : JobStore) : Nat :=
  (st.map Job.id).foldr max 0 + 1

/-- SELECT by primary key, `self.db.get(models.AutopilotJob, job_id)`. -/
def dbGet (st : JobStore) (jobId : Nat) : Option Job :=
  st.find? (fun j => j.id == jobId)

/-- JobQueueService.get_job: SELECT filtered by id and project_id. -/
def get_job (st : JobStore) (projectId jobId : Nat) : Option Job :=
  st.find? (fun j => j.id == jobId && j.projectId == projectId)

/-! ## Job queue operations (app/job_queue.py) -/

/-- Parameters of JobQueueService.enqueue_job. -/
structure EnqueueParams where
  projectId : Nat
  maxItems : Nat
  provider : Option String
  requestedBy : String
  maxAttempts : Nat
  deriving DecidableEq, Repr

/-- JobQueueService.enqueue_job: insert a new row in status queued with the
ORM column defaults. -/
def enqueue_job (st : JobStore) (p : EnqueueParams) (now : Int) : Job × JobStore :=
  let job : Job :=
    { id := freshId st
      projectId := p.projectId
      status := .queued
      maxItems := p.maxItems
      provider := p.provider
      requestedBy := p.requestedBy
      attempts := 0
      maxAttempts := p.maxAttempts
      workerId := none
      startedAt := none
      finishedAt := none
      canceledAt := none
      processedItems := 0
      createdPrs := 0
      mergedPrs := 0
      mergedPrIdsJson := "[]"
      errorMessage := ""
      createdAt := now
      updatedAt := now }
  (job, st ++ [job])

/-- One step of the claim SELECT scan: prefer a queued row over none, and the
row with strictly smaller created_at otherwise (the earlier row in the table
wins ties). -/
def selectBetter (j : Job) : Option Job → Option Job
  | none => if j.status = .queued then some j else none
  | some k =>
    if j.status = .queued then
      (if j.createdAt ≤ k.createdAt then some j else some k)
    else some k

/-- The SELECT of claim_next_job: the queued row with least created_at
(ORDER BY created_at ASC LIMIT 1). -/
def selectOldestQueued : JobStore → Option Job
  | [] => none
  | j :: rest => selectBetter j (selectOldestQueued rest)

/-- The row transformation of the conditional UPDATE inside claim_next_job:
rows matching (id = jobId AND status = queued) transition to running with
attempts+1, worker_id, started_at, updated_at and error_message cleared. -/
def claimRow (jobId : Nat) (w : String) (now : Int) (j : Job) : Job :=
  if j.id = jobId ∧ j.status = .queued then
    { j with
        status := .running
        attempts := j.attempts + 1
        workerId := some w
        startedAt := some now
        updatedAt := now
        errorMessage := "" }
  else j

/-- Rowcount of the conditional UPDATE of claim_next_job. -/
def claimRowcount (st : JobStore) (jobId : Nat) : Nat :=
  st.countP (fun j => decide (j.id = jobId ∧ j.status = .queued))

/-- JobQueueService.claim_next_job.  The SELECT runs against `stSel` and the
conditional UPDATE against `stUpd`; a concurrent interleaving is the case
`stSel ≠ stUpd` (another worker changed the row between the two statements),
while the sequential call is `stSel = stUpd`.  A zero rowcount rolls back and
returns none; the method never raises. -/
def claim_next_job (stSel stUpd : JobStore) (w : String) (now : Int) :
    Except String (Option Job) × JobStore :=
  match selectOldestQueued stSel with
  | none => (.ok none, stUpd)
  | some c =>
    if claimRowcount stUpd c.id = 0 then
      (.ok none, stUpd)
    else
      let st' := stUpd.map (claimRow c.id w now)
      (.ok (dbGet st' c.id), st')

/-- JobQueueService.mark_failed: requeue when retryable and attempts are left
and the job is not canceled, else terminal failure; the message is defaulted
when empty and truncated to 3000 characters. -/
def mark_failed (st : JobStore) (jobId : Nat) (errorMessage : String) (retryable : Bool)
    (now : Int) : Option Job × JobStore :=
  match dbGet st jobId with
  | none => (none, st)
  | some job =>
    let safeError := pyTake (if errorMessage = "" then "Job execution failed" else errorMessage) 3000
    let job' :=
      if retryable = true ∧ job.attempts < job.maxAttempts ∧ ¬ job.status = .canceled then
        { job with
            status := .queued
            workerId := none
            updatedAt := now
            errorMessage := safeError }
      else
        { job with
            status := .failed
            finishedAt := some now
            updatedAt := now
            errorMessage := safeError }
    (some job', st.map (fun j => if j.id = job.id then job' else j))

/-- JobQueueService.cancel_job: idempotent from terminal statuses, otherwise
mark canceled with canceled_at and finished_at set. -/
def cancel_job (st : JobStore) (projectId jobId : Nat) (now : Int) : Option Job × JobStore :=
  match get_job st projectId jobId with
  | none => (none, st)
  | some job =>
    if job.status = .completed ∨ job.status = .failed ∨ job.status = .canceled then
      (some job, st)
    else
      let job' :=
        { job with
            status := .canceled
            canceledAt := some now
            finishedAt := some now
            updatedAt := now }
      (some job', st.map (fun j => if j.id = job.id then job' else j))

/-- The row reset of the conditional UPDATE inside retry_job. -/
def retryResetRow (projectId jobId : Nat) (now : Int) (j : Job) : Job :=
  if j.id = jobId ∧ j.projectId = projectId ∧ (j.status = .failed ∨ j.status = .canceled) then
    { j with
        status := .queued
        attempts := 0
        workerId := none
        startedAt := none
        finishedAt := none
        canceledAt := none
        processedItems := 0
        createdPrs := 0
        mergedPrs := 0
        mergedPrIdsJson := "[]"
        errorMessage := ""
        updatedAt := now }
  else j

/-- JobQueueService.retry_job: allowed only from failed or canceled; resets the
attempt counters, worker, timestamps, result counters and error message via a
conditional UPDATE; raises ValueError otherwise.  The returned store is the
table after the call (unchanged whenever the method raises). -/
def retry_job (st : JobStore) (projectId jobId : Nat) (now : Int) :
    Except String (Option Job) × JobStore :=
  match get_job st projectId jobId with
  | none => (.ok none, st)
  | some job =>
    if ¬ (job.status = .failed ∨ job.status = .canceled) then
      (.error "Only failed or canceled jobs can be retried", st)
    else
      let rowcount := st.countP
        (fun j => decide (j.id = jobId ∧ j.projectId = projectId ∧
            (j.status = .failed ∨ j.status = .canceled)))
      if rowcount = 0 then
        match get_job st projectId jobId with
        | none => (.ok none, st)
        | some _ => (.error "Only failed or canceled jobs can be retried", st)
      else
        let st' := st.map (retryResetRow projectId jobId now)
        (.ok (dbGet st' jobId), st')

/-- Does this row satisfy the staleness SELECT condition of
recover_stale_running_jobs: running with a non-null started_at at or before
the threshold? -/
def staleStarted (threshold : Int) (j : Job) : Bool :=
  match j.startedAt with
  | some t => decide (t ≤ threshold)
  | none => false

/-- First bulk UPDATE of recover_stale_running_jobs: stale running rows with
attempts left are requeued with the recorded reason. -/
def requeueStaleRow (threshold now : Int) (err : String) (j : Job) : Job :=
  if j.status = .running ∧ staleStarted threshold j = true ∧ j.attempts < j.maxAttempts then
    { j with
        status := .queued
        workerId := none
        startedAt := none
        finishedAt := none
        updatedAt := now
        errorMessage := err }
  else j

/-- Second bulk UPDATE of recover_stale_running_jobs: stale running rows with
attempts exhausted are terminally failed with the recorded reason. -/
def failStaleRow (threshold now : Int) (err : String) (j : Job) : Job :=
  if j.status = .running ∧ staleStarted threshold j = true ∧ j.maxAttempts ≤ j.attempts then
    { j with
        status := .failed
        workerId := none
        finishedAt := some now
        updatedAt := now
        errorMessage := err }
  else j

/-- The recorded reason of recover_stale_running_jobs, truncated like the
source to 3000 characters. -/
def staleErrorMessage (timeout : Int) : String :=
  pyTake ("Recovered stale running job after exceeding timeout (" ++ toString timeout ++ "s)") 3000

/-- JobQueueService.recover_stale_running_jobs: guard on non-positive timeout,
then the two sequential bulk updates; returns the summed rowcounts and the
resulting table. -/
def recover_stale_running_jobs (st : JobStore) (timeout : Int) (now : Int) : Nat × JobStore :=
  if timeout ≤ 0 then (0, st)
  else
    let threshold := now - timeout
    let err := staleErrorMessage timeout
    let requeuedCount := st.countP
      (fun j => decide (j.status = .running ∧ staleStarted threshold j = true ∧
          j.attempts < j.maxAttempts))
    let st1 := st.map (requeueStaleRow threshold now err)
    let failedCount := st1.countP
      (fun j => decide (j.status = .running ∧ staleStarted threshold j = true ∧
          j.maxAttempts ≤ j.attempts))
    let st2 := st1.map (failStaleRow threshold now err)
    (requeuedCount + failedCount, st2)

/-! ## Provider data model (app/providers.py) -/

/-- Embedding of providers.FileChange.operation. -/
inductive FileOperation where
  | upsert
  | delete
  deriving DecidableEq, Repr

/-- Embedding of the providers.FileChange slots dataclass. -/
structure FileChange where
  path : String
  content : String
  operation : FileOperation
  deriving DecidableEq, Repr

/-- Embedding of the providers.CodeChange slots dataclass.  Its only fields
are file_changes, commit_message, summary and patch. -/
structure CodeChange where
  file_changes : List FileChange
  commit_message : String
  summary : String
  patch : Option String
  deriving DecidableEq, Repr

/-- A Python value read off a CodeChange attribute. -/
inductive PyValue where
  | str (s : String)
  | optStr (s : Option String)
  | fileChangeList (l : List FileChange)
  deriving DecidableEq, Repr

/-- Python attribute lookup on a CodeChange instance.  Because the dataclass
is declared with slots=True, exactly the four declared fields resolve; any
other attribute name raises AttributeError, modelled as none. -/
def CodeChange.getAttr (c : CodeChange) (name : String) : Option PyValue :=
  if name = "file_changes" then some (.fileChangeList c.file_changes)
  else if name = "commit_message" then some (.str c.commit_message)
  else if name = "summary" then some (.str c.summary)
  else if name = "patch" then some (.optStr c.patch)
  else none

/-! ## Git workspace manager (app/git_ops.py) -/

/-- Errors surfaced by the change-application section of commit_agent_change:
the GitError raised by the path guard, or an uncaught Python exception from an
attribute access on the change object. -/
inductive CommitErr where
  | gitError (msg : String)
  | attributeError (typeName fieldName : String)
  deriving DecidableEq, Repr

/-- A resolved absolute filesystem path as its list of components from the
filesystem root. -/
abbrev AbsPath := List String

/-- One step of pathlib resolution over a path component. -/
def resolveStep (acc : AbsPath) (comp : String) : AbsPath :=
  if comp = "" ∨ comp = "." then acc
  else if comp = ".." then acc.dropLast
  else acc ++ [comp]

/-- `(base / rel).resolve()`: split the relative path on separators and fold
the components over the base, with ".." popping and resolution stopping at the
filesystem root; an absolute rel replaces the base entirely. -/
def resolvePath (base : AbsPath) (rel : String) : AbsPath :=
  let start := match rel.data with | '/' :: _ => ([] : AbsPath) | _ => base
  (pySplit rel (fun c => c = '/')).foldl resolveStep start

/-- GitWorkspaceManager._ensure_path_within_workspace: resolve the target
under the workspace and require the workspace to be the target itself or one
of its parents, else raise the path-safety GitError. -/
def ensure_path_within_workspace (workspace : AbsPath) (relativePath : String) :
    Except CommitErr AbsPath :=
  let target := resolvePath workspace relativePath
  if workspace.isPrefixOf target then .ok target
  else .error (.gitError ("Refusing to write outside workspace: " ++ relativePath))

/-- The workspace files: resolved path components mapped to contents. -/
structure FsState where
  files : List (AbsPath × String)
  deriving DecidableEq, Repr

/-- Write (upsert) one file into the workspace state. -/
def FsState.write (fs : FsState) (p : AbsPath) (content : String) : FsState :=
  { files := (fs.files.filter (fun e => ¬ e.1 = p)) ++ [(p, content)] }

/-- The change-application section of GitWorkspaceManager.commit_agent_change
(the statements between branch creation and the commit): it reads
change.relative_path, validates it against the workspace root, writes the
newline-terminated change.content to the target, and stages it.  Both
attribute reads are made explicit because CodeChange declares neither field. -/
def commit_agent_change_apply (workspace : AbsPath) (fs : FsState) (change : CodeChange) :
    Except CommitErr (FsState × AbsPath) :=
  match change.getAttr "relative_path" with
  | some (.str rel) =>
    (match ensure_path_within_workspace workspace rel with
     | .error e => .error e
     | .ok target =>
       match change.getAttr "content" with
       | some (.str content) =>
         let content := if endsWithLf content then content else content ++ "\n"
         .ok (fs.write target content, target)
       | _ => .error (.attributeError "CodeChange" "content"))
  | _ => .error (.attributeError "CodeChange" "relative_path")

/-! ## Worker loop (app/job_worker.py) -/

/-- The observable outcome of one run_once call: either it returns a
processed flag (possibly setting the stop event before returning, as the
loop rechecks it at the top), or it raises. -/
inductive TickOutcome where
  | ok (processed : Bool) (stopAfter : Bool)
  | raises (msg : String)
  deriving DecidableEq, Repr

/-- AutopilotJobWorker._run_loop over a finite script of run_once outcomes:
the loop body is `processed = self.run_once()` with no exception handling, so
a raising tick propagates and terminates the loop.  The result counts the
ticks that completed; an exhausted script ends the observation. -/
def run_loop : Bool → List TickOutcome → Except String Nat
  | true, _ => .ok 0
  | false, [] => .ok 0
  | false, t :: rest =>
    match t with
    | .raises msg => .error msg
    | .ok _processed stopAfter =>
      match run_loop stopAfter rest with
      | .ok n => .ok (n + 1)
      | .error e => .error e

/-- The instance attributes assigned by AutopilotJobWorker.__init__
(app/job_worker.py lines 26-33); the worker object has no other state, in
particular no loop-error counter. -/
def workerInitAttrs : List String :=
  ["session_factory", "poll_interval_sec", "stale_timeout_sec", "worker_id",
   "_stop_event", "_thread", "_metrics_lock", "_stale_recovered_count"]

/-! ## Orchestration data model (app/models.py, app/orchestration.py) -/

/-- Embedding of models.WorkItemStatus. -/
inductive WorkItemStatus where
  | backlog
  | in_progress
  | review
  | done
  deriving DecidableEq, Repr

/-- Embedding of models.AgentRole. -/
inductive AgentRole where
  | planner
  | coder
  | reviewer
  | tester
  deriving DecidableEq, Repr

/-- Embedding of models.ReviewDecision. -/
inductive ReviewDecision where
  | approve
  | request_changes
  deriving DecidableEq, Repr

/-- Embedding of models.PullRequestStatus (`open` is a Lean keyword, hence
the trailing underscore). -/
inductive PullRequestStatus where
  | open_
  | merged
  | closed
  deriving DecidableEq, Repr

/-- The fields of a models.Agent row used by the orchestration engine. -/
structure Agent where
  id : Nat
  name : String
  role : AgentRole
  deriving DecidableEq, Repr

/-- Embedding of the models.AutomationPolicy row (defaults: all flags true,
min_review_approvals 1). -/
structure AutomationPolicy where
  auto_triage : Bool := true
  auto_assign : Bool := true
  auto_review : Bool := true
  auto_merge : Bool := true
  min_review_approvals : Nat := 1
  require_test_pass : Bool := true
  deriving DecidableEq, Repr

/-- The fields of a models.WorkItem row used by the orchestration engine. -/
structure WorkItem where
  id : Nat
  projectId : Nat
  title : String
  description : String
  status : WorkItemStatus
  priority : Nat
  createdBy : String
  assignedAgent : Option Agent
  sourceObjective : String
  deriving DecidableEq, Repr

/-- The fields of a models.PullRequest row created by the per-item pipeline. -/
structure PullRequest where
  workItemId : Nat
  title : String
  description : String
  sourceBranch : String
  targetBranch : String
  status : PullRequestStatus
  checksPassed : Bool
  autoMerge : Bool
  createdByAgentId : Nat
  deriving DecidableEq, Repr

/-- The fields of a models.Review row created by the per-item pipeline. -/
structure Review where
  agentId : Nat
  decision : ReviewDecision
  comment : String
  deriving DecidableEq, Repr

/-- Embedding of providers.ReviewOutcome. -/
structure ReviewOutcome where
  decision : ReviewDecision
  comment : String
  deriving DecidableEq, Repr

/-! ## Objective splitting (AutopilotService.create_work_items_from_objective) -/

/-- The whitespace characters removed by Python str.strip(). -/
def isPyWhitespace (c : Char) : Bool :=
  c = ' ' ∨ c = '\t' ∨ c = '\n' ∨ c = '\r' ∨ c = '\x0b' ∨ c = '\x0c'

/-- Python str.strip(): drop whitespace from both ends. -/
def pyStrip (s : String) : String :=
  ⟨((s.data.dropWhile isPyWhitespace).reverse.dropWhile isPyWhitespace).reverse⟩

/-- The sentence/line segmentation of create_work_items_from_objective:
re.split on runs of newline, period and semicolon, each piece stripped, empty
pieces dropped. -/
def splitSegments (objective : String) : List String :=
  ((pySplit objective (fun c => c = '\n' ∨ c = '.' ∨ c = ';')).map pyStrip).filter
    (fun s => ¬ s = "")

/-- The work item built for the idx-th segment (1-based) of an objective:
title prefixed by Scope or Implement and truncated to 72 characters, backlog
status, priority min(idx, 5). -/
def mkObjectiveItem (projectId : Nat) (objective createdBy : String) (idx : Nat)
    (segment : String) : WorkItem :=
  { id := 0
    projectId := projectId
    title := (if idx = 1 then "Scope: " else "Implement: ") ++ pyTake segment 72
    description := "Objective fragment: " ++ segment ++
      "\nDeliver code changes, tests, and docs through autonomous agent workflow."
    status := .backlog
    priority := min idx 5
    createdBy := createdBy
    assignedAgent := none
    sourceObjective := objective }

/-- AutopilotService.create_work_items_from_objective: segment the free text
(whole stripped text as the single segment when policy.auto_triage is off or
no segment survives), cap at max_work_items, and persist each segment as a
backlog item with priority min(position, 5). -/
def create_work_items_from_objective (policy : AutomationPolicy) (projectId : Nat)
    (objective : String) (maxWorkItems : Nat) (createdBy : String) : List WorkItem :=
  let sentences0 := splitSegments objective
  let sentences1 := if sentences0 = [] then [pyStrip objective] else sentences0
  let sentences := if policy.auto_triage then sentences1 else [pyStrip objective]
  let capped := sentences.take maxWorkItems
  capped.enum.map (fun e => mkObjectiveItem projectId objective createdBy (e.1 + 1) e.2)

/-! ## Per-item pipeline (AutopilotService._run_item) -/

/-- Is this character kept verbatim by orchestration._slugify
(Python character class a-zA-Z0-9)? -/
def isSlugChar (c : Char) : Bool :=
  (('a' ≤ c ∧ c ≤ 'z') ∨ ('A' ≤ c ∧ c ≤ 'Z') ∨ ('0' ≤ c ∧ c ≤ '9'))

/-- Core of orchestration._slugify: lowercase kept characters and collapse
every maximal run of other characters into a single dash. -/
def slugifyCore : List Char → List Char
  | [] => []
  | c :: rest =>
    let tail := slugifyCore rest
    if isSlugChar c then c.toLower :: tail
    else
      match tail with
      | '-' :: _ => tail
      | _ => '-' :: tail

/-- Python str.strip("-"). -/
def stripDashes (cs : List Char) : List Char :=
  ((cs.dropWhile (fun c => c = '-')).reverse.dropWhile (fun c => c = '-')).reverse

/-- orchestration._slugify: collapse non-alphanumeric runs to dashes, strip
the dashes at the ends, truncate to max_len, and fall back to "change". -/
def slugify (text : String) (maxLen : Nat) : String :=
  let slug : String := ⟨(stripDashes (slugifyCore text.data)).take maxLen⟩
  if slug = "" then "change" else slug

/-- The deterministic branch name derived in _run_item from the item id and
its slugified title. -/
def itemBranchName (item : WorkItem) : String :=
  "agent/" ++ toString item.id ++ "-" ++ slugify item.title 36

/-- Embedding of git_ops.GitExecutionResult. -/
structure GitExecutionResult where
  branchName : String
  commitSha : String
  diff : String
  workspacePath : String
  deriving DecidableEq, Repr

/-- The outcomes of the external collaborators consumed by one _run_item call:
the provider synthesis, validation and per-role review results, and the git
layer commit and merge results (GitError carried as a message). -/
structure ItemPipelineEnv where
  synthesized : CodeChange
  commitResult : Except String GitExecutionResult
  validation : Bool × String
  reviewOutcome : AgentRole → Bool → ReviewOutcome
  mergeResult : Except String String

/-- AutopilotService._pick_agent: the first agent grouped under the role. -/
def pick_agent (grouped : AgentRole → List Agent) (role : AgentRole) : Option Agent :=
  (grouped role).head?

/-- The session-visible outcome of one _run_item call when no exception
escapes: the item status, the created pull request and reviews, and whether
the branch was merged. -/
structure RunItemResult where
  itemStatus : WorkItemStatus
  pr : PullRequest
  reviews : List Review
  merged : Bool
  deriving Repr

/-- The outcome of one _run_item call: an escaped exception together with the
item status it leaves behind, or the completed result. -/
inductive RunItemOutcome where
  | failed (itemStatus : WorkItemStatus) (err : String)
  | completed (r : RunItemResult)
  deriving Repr

/-- The pull request row opened by _run_item: status open, checks_passed from
validation, auto_merge True. -/
def itemPr (defaultBranch : String) (item : WorkItem) (coder : Agent)
    (gitResult : GitExecutionResult) (checksPassed : Bool) : PullRequest :=
  { workItemId := item.id
    title := "[agent] " ++ item.title
    description := "Autonomous agent delivery with real git branch and commit.\n\n" ++
      "- branch: " ++ itemBranchName item ++ "\n- commit: " ++ gitResult.commitSha
    sourceBranch := itemBranchName item
    targetBranch := defaultBranch
    status := .open_
    checksPassed := checksPassed
    autoMerge := true
    createdByAgentId := coder.id }

/-- The reviews _run_item requests under policy.auto_review from the reviewer
and tester roles, when such agents exist. -/
def itemReviews (grouped : AgentRole → List Agent) (policy : AutomationPolicy)
    (env : ItemPipelineEnv) (checksPassed : Bool) : List Review :=
  if policy.auto_review then
    (match pick_agent grouped .reviewer with
     | some r =>
       [{ agentId := r.id, decision := (env.reviewOutcome .reviewer checksPassed).decision,
          comment := (env.reviewOutcome .reviewer checksPassed).comment }]
     | none => []) ++
    (match pick_agent grouped .tester with
     | some t =>
       [{ agentId := t.id, decision := (env.reviewOutcome .tester checksPassed).decision,
          comment := (env.reviewOutcome .tester checksPassed).comment }]
     | none => [])
  else []

/-- The merge gate of _run_item: merge_allowed = policy.auto_merge AND
pr.auto_merge AND approvals ≥ policy.min_review_approvals AND
(not policy.require_test_pass OR pr.checks_passed), where approvals counts
the reviews of this run with decision approve. -/
def mergeGate (policy : AutomationPolicy) (pr : PullRequest) (reviews : List Review) : Bool :=
  policy.auto_merge && pr.autoMerge &&
    decide (policy.min_review_approvals ≤
      reviews.countP (fun v => decide (v.decision = .approve))) &&
    (!policy.require_test_pass || pr.checksPassed)

/-- AutopilotService._run_item: resolve a coder, mark the item in progress,
commit the synthesized change on the derived branch, validate, open the pull
request, collect the policy-gated reviews, and decide the merge through the
merge gate; a git merge failure is non-fatal and leaves the item in review. -/
def run_item (defaultBranch : String) (item : WorkItem) (grouped : AgentRole → List Agent)
    (policy : AutomationPolicy) (env : ItemPipelineEnv) : RunItemOutcome :=
  let coder? :=
    match item.assignedAgent with
    | some a => some a
    | none => if policy.auto_assign then pick_agent grouped .coder else none
  match coder? with
  | none => .failed item.status "No active coder agent available."
  | some coder =>
    match env.commitResult with
    | .error e => .failed .backlog ("Git-backed execution failed: " ++ e)
    | .ok gitResult =>
      let checksPassed := env.validation.1
      let pr := itemPr defaultBranch item coder gitResult checksPassed
      let reviews := itemReviews grouped policy env checksPassed
      if mergeGate policy pr reviews then
        match env.mergeResult with
        | .error _ =>
          .completed { itemStatus := .review, pr := pr, reviews := reviews, merged := false }
        | .ok mergeSha =>
          .completed
            { itemStatus := .done
              pr := { pr with
                        status := .merged
                        description := pr.description ++ "\n- merged_sha: " ++ mergeSha }
              reviews := reviews
              merged := true }
      else
        .completed { itemStatus := .review, pr := pr, reviews := reviews, merged := false }

/-! ## Specification-side definitions for the stale-recovery refinement -/

/-- Specification-side staleness predicate (from the amended claim C5): a row
acted on by stale recovery is running with a recorded started_at at or before
now − timeout. -/
def staleSpec (threshold : Int) (j : Job) : Bool :=
  decide (j.status = .running) && staleStarted threshold j

/-- Specification-side row outcome (from the amended claim C5): a stale row
with attempts left is requeued with the reason, a stale row with attempts
exhausted is terminally failed with the reason, and every other row is
unchanged. -/
def recoverRowSpec (threshold now : Int) (err : String) (j : Job) : Job :=
  if j.status = .running ∧ staleStarted threshold j = true then
    (if j.attempts < j.maxAttempts then
      { j with
          status := .queued
          workerId := none
          startedAt := none
          finishedAt := none
          updatedAt := now
          errorMessage := err }
     else
      { j with
          status := .failed
          workerId := none
          finishedAt := some now
          updatedAt := now
          errorMessage := err })
  else j

/-! ## Concrete inputs used by witnesses and counterexamples -/

/-- A job row with the ORM defaults, used as the base of concrete stores. -/
def baseJob : Job :=
  { id := 1
    projectId := 1
    status := .queued
    maxItems := 3
    provider := none
    requestedBy := "tester"
    attempts := 0
    maxAttempts := 1
    workerId := none
    startedAt := none
    finishedAt := none
    canceledAt := none
    processedItems := 0
    createdPrs := 0
    mergedPrs := 0
    mergedPrIdsJson := "[]"
    errorMessage := ""
    createdAt := 0
    updatedAt := 0 }

/-- A running job whose started_at is exactly now − timeout for now = 1000 and
timeout = 60: it does not strictly predate the threshold. -/
def staleEdgeJob : Job :=
  { baseJob with
      status := .running
      attempts := 1
      maxAttempts := 3
      workerId := some "worker-old"
      startedAt := some 940 }

/-- A running job with attempts left (1 of 3). -/
def retryableJob : Job := { baseJob with status := .running, attempts := 1, maxAttempts := 3 }

/-- A running job with attempts exhausted (2 of 2). -/
def exhaustedJob : Job := { baseJob with status := .running, attempts := 2, maxAttempts := 2 }

/-- A failed job carrying recorded results and an error message. -/
def failedResultJob : Job :=
  { baseJob with
      status := .failed
      attempts := 1
      workerId := some "worker-a"
      startedAt := some 1
      finishedAt := some 2
      processedItems := 3
      createdPrs := 2
      mergedPrs := 1
      mergedPrIdsJson := "[9]"
      errorMessage := "boom" }

/-- A stale running job with attempts left (started well before the threshold). -/
def staleRetryJob : Job :=
  { baseJob with
      id := 1, status := .running, attempts := 1, maxAttempts := 3,
      workerId := some "worker-old-a", startedAt := some 100 }

/-- A stale running job with attempts exhausted. -/
def staleTerminalJob : Job :=
  { baseJob with
      id := 2, status := .running, attempts := 2, maxAttempts := 2,
      workerId := some "worker-old-b", startedAt := some 100 }

/-- A running job that started after the threshold. -/
def freshRunningJob : Job :=
  { baseJob with
      id := 3, status := .running, attempts := 1, maxAttempts := 3,
      workerId := some "worker-new", startedAt := some 990 }

/-- The empty workspace file state. -/
def emptyFs : FsState := { files := [] }

/-- The workspace root used in the path-safety evaluation. -/
def workspaceC3 : AbsPath := ["srv", "workspaces", "project-2"]

/-- The multi-file change of the repository test
test_commit_agent_change_supports_multiple_file_changes. -/
def multiFileChange : CodeChange :=
  { file_changes :=
      [{ path := "src/feature.py", content := "def run() -> str:\n    return 1\n",
         operation := .upsert },
       { path := "tests/test_feature.py", content := "def test_run_smoke() -> None:\n    assert True\n",
         operation := .upsert }]
    commit_message := "feat: add generated feature scaffolding"
    summary := "Adds source and test scaffolding."
    patch := none }

/-- The escaping change of the repository test
test_commit_agent_change_rejects_path_escape_file_change. -/
def escapeChange : CodeChange :=
  { file_changes := [{ path := "../../outside.txt", content := "unsafe\n", operation := .upsert }]
    commit_message := "feat: unsafe"
    summary := "unsafe"
    patch := none }

/-- The automation policy row with its column defaults. -/
def defaultPolicy : AutomationPolicy := {}

/-- The automation policy with auto_triage disabled. -/
def noTriagePolicy : AutomationPolicy := { auto_triage := false }

/-- Concrete coder agent. -/
def coderAgent : Agent := { id := 11, name := "Forge Coder", role := .coder }

/-- Concrete reviewer agent. -/
def reviewerAgent : Agent := { id := 12, name := "Sentinel Reviewer", role := .reviewer }

/-- Concrete tester agent. -/
def testerAgent : Agent := { id := 13, name := "Probe Tester", role := .tester }

/-- Concrete role grouping with one active agent per non-planner role. -/
def groupedAgents : AgentRole → List Agent
  | .planner => []
  | .coder => [coderAgent]
  | .reviewer => [reviewerAgent]
  | .tester => [testerAgent]

/-- Concrete backlog work item assigned to the coder. -/
def itemC7 : WorkItem :=
  { id := 4
    projectId := 1
    title := "Add retry"
    description := ""
    status := .backlog
    priority := 1
    createdBy := "system"
    assignedAgent := some coderAgent
    sourceObjective := "" }

/-- Concrete successful commit result. -/
def gitResultC7 : GitExecutionResult :=
  { branchName := "agent/4-add-retry"
    commitSha := "abc123"
    diff := ""
    workspacePath := "/srv/workspaces/project-1" }

/-- Pipeline environment whose collaborators all succeed except the final git
merge, which raises a GitError. -/
def envMergeFails : ItemPipelineEnv :=
  { synthesized :=
      { file_changes := [], commit_message := "agent: implement work item 4", summary := "",
        patch := none }
    commitResult := .ok gitResultC7
    validation := (true, "ok")
    reviewOutcome := fun _ _ => { decision := .approve, comment := "ok" }
    mergeResult := .error "merge failed: conflict" }

/-- Pipeline environment whose collaborators all succeed, including the merge. -/
def envMergeOk : ItemPipelineEnv :=
  { envMergeFails with mergeResult := .ok "def456" }

/-! ## Theorems -/

/-- Claim C2 (refuted by the code): commit_agent_change does not accept a
change given as a list of file upserts/deletes or as a unified diff.  Its
change-application section reads change.relative_path, an attribute the
CodeChange slots dataclass does not declare, so every call — including the
multi-file change exercised by the test of the repository itself — raises
AttributeError before any file change or patch is examined. -/
theorem commit_agent_change_raises_attribute_error :
    (∀ (workspace : AbsPath) (fs : FsState) (change : CodeChange),
      commit_agent_change_apply workspace fs change =
        .error (.attributeError "CodeChange" "relative_path")) ∧
    commit_agent_change_apply workspaceC3 emptyFs multiFileChange =
      .error (.attributeError "CodeChange" "relative_path") :=
  ⟨fun _ _ _ => rfl, rfl⟩

/-- Claim C3 (refuted by the code): on the escaping file change
"../../outside.txt" commit_agent_change raises AttributeError, not the
path-safety GitError its own test expects; no write is performed, but for the
wrong reason.  The path guard itself, had it been reached, would have
resolved the target outside the workspace and raised the path-safety error. -/
theorem commit_agent_change_path_escape_behavior :
    commit_agent_change_apply workspaceC3 emptyFs escapeChange =
      .error (.attributeError "CodeChange" "relative_path") ∧
    ensure_path_within_workspace workspaceC3 "../../outside.txt" =
      .error (.gitError "Refusing to write outside workspace: ../../outside.txt") ∧
    resolvePath workspaceC3 "../../outside.txt" = ["srv", "outside.txt"] ∧
    workspaceC3.isPrefixOf (resolvePath workspaceC3 "../../outside.txt") = false :=
  ⟨rfl, rfl, rfl, rfl⟩

/-- Claim C6 (refuted by the code): the worker loop body runs run_once with no
exception handling, so a tick that raises — exactly the scripted run_once of
the repository test test_job_worker_loop_recovers_from_run_once_exception —
propagates and terminates the loop before any later tick, and the worker
defines no loop-error counter among its instance attributes. -/
theorem run_loop_uncaught_exception :
    run_loop false [TickOutcome.raises "boom", TickOutcome.ok false true] = .error "boom" ∧
    (∀ (msg : String) (rest : List TickOutcome),
      run_loop false (.raises msg :: rest) = .error msg) ∧
    workerInitAttrs.contains "loop_error_count" = false :=
  ⟨rfl, fun _ _ => rfl, rfl⟩

/-- Claim C5 counterexample: with now = 1000 and timeout = 60 the threshold is
940 and staleEdgeJob started exactly at 940, so its started_at does not
strictly predate now − timeout; the claim therefore says the job is not acted
on, yet recover_stale_running_jobs requeues it and reports one recovered job. -/
theorem recover_stale_strict_predates_counterexample :
    staleEdgeJob.startedAt = some (1000 - 60) ∧
    staleEdgeJob.status = .running ∧
    (recover_stale_running_jobs [staleEdgeJob] 60 1000).1 = 1 ∧
    (recover_stale_running_jobs [staleEdgeJob] 60 1000).2.map Job.status = [JobStatus.queued] :=
  ⟨rfl, rfl, rfl, rfl⟩

/-- Claim C9 counterexample: six sentence segments with max_items = 6 receive
priorities [1, 2, 3, 4, 5, 5] — min(position, 5) — which is not strictly
increasing in creation order: the fifth and sixth items share priority 5. -/
theorem create_work_items_priority_counterexample :
    ((create_work_items_from_objective defaultPolicy 1 "a. b. c. d. e. f" 6 "system").map
        WorkItem.priority) = [1, 2, 3, 4, 5, 5] ∧
    decide (List.Pairwise (· < ·) ([1, 2, 3, 4, 5, 5] : List Nat)) = false :=
  ⟨rfl, by decide⟩

/-! ## Helper lemmas on the claim SELECT and conditional UPDATE -/

theorem selectOldestQueued_mem (st : JobStore) :
    ∀ c : Job, selectOldestQueued st = some c → c ∈ st ∧ c.status = .queued := by
  induction st with
  | nil => intro c h; simp [selectOldestQueued] at h
  | cons j rest ih =>
    intro c h
    simp only [selectOldestQueued] at h
    cases hr : selectOldestQueued rest with
    | none =>
      rw [hr] at h
      simp only [selectBetter] at h
      by_cases hq : j.status = .queued
      · rw [if_pos hq] at h
        cases h
        exact ⟨List.mem_cons_self _ _, hq⟩
      · rw [if_neg hq] at h
        cases h
    | some k =>
      rw [hr] at h
      simp only [selectBetter] at h
      by_cases hq : j.status = .queued
      · rw [if_pos hq] at h
        by_cases hle : j.createdAt ≤ k.createdAt
        · rw [if_pos hle] at h
          cases h
          exact ⟨List.mem_cons_self _ _, hq⟩
        · rw [if_neg hle] at h
          cases h
          obtain ⟨hmem, hstat⟩ := ih c hr
          exact ⟨List.mem_cons_of_mem _ hmem, hstat⟩
      · rw [if_neg hq] at h
        cases h
        obtain ⟨hmem, hstat⟩ := ih c hr
        exact ⟨List.mem_cons_of_mem _ hmem, hstat⟩

theorem selectOldestQueued_eq_none (st : JobStore) :
    selectOldestQueued st = none → ∀ k ∈ st, ¬ k.status = .queued := by
  induction st with
  | nil => intro _ k hk; simp at hk
  | cons j rest ih =>
    intro h k hk
    simp only [selectOldestQueued] at h
    cases hr : selectOldestQueued rest with
    | none =>
      rw [hr] at h
      simp only [selectBetter] at h
      by_cases hq : j.status = .queued
      · rw [if_pos hq] at h; cases h
      · rcases List.mem_cons.mp hk with rfl | hk'
        · exact hq
        · exact ih hr k hk'
    | some m =>
      rw [hr] at h
      simp only [selectBetter] at h
      by_cases hq : j.status = .queued
      · rw [if_pos hq] at h
        by_cases hle : j.createdAt ≤ m.createdAt
        · rw [if_pos hle] at h; cases h
        · rw [if_neg hle] at h; cases h
      · rw [if_neg hq] at h; cases h

theorem selectOldestQueued_min (st : JobStore) :
    ∀ c : Job, selectOldestQueued st = some c →
      ∀ k ∈ st, k.status = .queued → c.createdAt ≤ k.createdAt := by
  induction st with
  | nil => intro c h; simp [selectOldestQueued] at h
  | cons j rest ih =>
    intro c h k hk hkq
    simp only [selectOldestQueued] at h
    cases hr : selectOldestQueued rest with
    | none =>
      rw [hr] at h
      simp only [selectBetter] at h
      by_cases hq : j.status = .queued
      · rw [if_pos hq] at h
        cases h
        rcases List.mem_cons.mp hk with rfl | hk'
        · exact le_refl _
        · exact absurd hkq (selectOldestQueued_eq_none rest hr k hk')
      · rw [if_neg hq] at h
        cases h
    | some m =>
      rw [hr] at h
      simp only [selectBetter] at h
      by_cases hq : j.status = .queued
      · rw [if_pos hq] at h
        by_cases hle : j.createdAt ≤ m.createdAt
        · rw [if_pos hle] at h
          cases h
          rcases List.mem_cons.mp hk with rfl | hk'
          · exact le_refl _
          · exact le_trans hle (ih m hr k hk' hkq)
        · rw [if_neg hle] at h
          cases h
          rcases List.mem_cons.mp hk with rfl | hk'
          · exact le_of_lt (lt_of_not_le hle)
          · exact ih c hr k hk' hkq
      · rw [if_neg hq] at h
        cases h
        rcases List.mem_cons.mp hk with rfl | hk'
        · exact absurd hkq hq
        · exact ih c hr k hk' hkq

theorem selectOldestQueued_append_single (st : JobStore) (n : Job)
    (hq : ∀ j ∈ st, ¬ j.status = .queued) (hn : n.status = .queued) :
    selectOldestQueued (st ++ [n]) = some n := by
  induction st with
  | nil => simp [selectOldestQueued, selectBetter, hn]
  | cons j rest ih =>
    have hj : ¬ j.status = .queued := hq j (List.mem_cons_self _ _)
    have hrest : selectOldestQueued (rest ++ [n]) = some n :=
      ih (fun k hk => hq k (List.mem_cons_of_mem _ hk))
    simp [selectOldestQueued, selectBetter, hrest, hj]

theorem claimRow_id (jobId : Nat) (w : String) (now : Int) (j : Job) :
    (claimRow jobId w now j).id = j.id := by
  unfold claimRow; split <;> rfl

theorem retryResetRow_id (projectId jobId : Nat) (now : Int) (j : Job) :
    (retryResetRow projectId jobId now j).id = j.id := by
  unfold retryResetRow; split <;> rfl

theorem find?_map_of_unique (g : Job → Job) (hg : ∀ j, (g j).id = j.id) :
    ∀ (st : JobStore) (c : Job), c ∈ st → (st.map Job.id).Nodup →
      (st.map g).find? (fun j => j.id == c.id) = some (g c) := by
  intro st
  induction st with
  | nil => intro c hc _; simp at hc
  | cons j rest ih =>
    intro c hc hnd
    simp only [List.map_cons, List.nodup_cons] at hnd
    rcases List.mem_cons.mp hc with rfl | hc'
    · exact List.find?_cons_of_pos _ (by simp [hg])
    · have hne : j.id ≠ c.id := by
        intro he
        exact hnd.1 (he ▸ List.mem_map_of_mem Job.id hc')
      rw [List.map_cons, List.find?_cons_of_neg _ (by simp [hg, hne])]
      exact ih c hc' hnd.2

theorem find?_append_of_forall_neg {p : Job → Bool} :
    ∀ (l₁ l₂ : List Job), (∀ j ∈ l₁, p j = false) → (l₁ ++ l₂).find? p = l₂.find? p := by
  intro l₁
  induction l₁ with
  | nil => intro l₂ _; rfl
  | cons a t ih =>
    intro l₂ hneg
    rw [List.cons_append, List.find?_cons_of_neg _ (by simp [hneg a (List.mem_cons_self a t)])]
    exact ih l₂ (fun j hj => hneg j (List.mem_cons_of_mem _ hj))

theorem le_foldr_max (l : List Nat) : ∀ x ∈ l, x ≤ l.foldr max 0 := by
  induction l with
  | nil => simp
  | cons a t ih =>
    intro x hx
    rcases List.mem_cons.mp hx with rfl | hx'
    · exact le_max_left _ _
    · exact le_trans (ih x hx') (le_max_right _ _)

theorem id_lt_freshId (st : JobStore) : ∀ j ∈ st, j.id < freshId st := by
  intro j hj
  have : j.id ≤ (st.map Job.id).foldr max 0 :=
    le_foldr_max _ _ (List.mem_map_of_mem Job.id hj)
  exact Nat.lt_succ_of_le this

theorem claimRowcount_ne_zero (st : JobStore) (c : Job) (hc : c ∈ st)
    (hq : c.status = .queued) : claimRowcount st c.id ≠ 0 := by
  intro h0
  have := (List.countP_eq_zero.mp h0) c hc
  simp [hq] at this

theorem claim_next_job_ok_eq (st : JobStore) (w : String) (now : Int) (j : Job)
    (hnd : (st.map Job.id).Nodup)
    (h : (claim_next_job st st w now).1 = .ok (some j)) :
    ∃ c, selectOldestQueued st = some c ∧ c.status = .queued ∧
      j = { c with
              status := .running
              attempts := c.attempts + 1
              workerId := some w
              startedAt := some now
              updatedAt := now
              errorMessage := "" } := by
  unfold claim_next_job at h
  cases hsel : selectOldestQueued st with
  | none => rw [hsel] at h; simp at h
  | some c =>
    rw [hsel] at h
    dsimp only at h
    obtain ⟨hc, hcq⟩ := selectOldestQueued_mem st c hsel
    rw [if_neg (claimRowcount_ne_zero st c hc hcq)] at h
    dsimp only at h
    unfold dbGet at h
    rw [find?_map_of_unique (claimRow c.id w now) (claimRow_id c.id w now) st c hc hnd] at h
    refine ⟨c, rfl, hcq, ?_⟩
    have hj : some (claimRow c.id w now c) = some j := by
      exact Option.some.inj (Except.ok.inj h) ▸ rfl
    have := Option.some.inj hj
    rw [← this]
    unfold claimRow
    rw [if_pos ⟨rfl, hcq⟩]

theorem claim_next_job_append_fresh (st : JobStore) (n : Job) (w : String) (now : Int)
    (hq : ∀ j ∈ st, ¬ j.status = .queued) (hn : n.status = .queued)
    (hfresh : ∀ j ∈ st, j.id ≠ n.id) :
    (claim_next_job (st ++ [n]) (st ++ [n]) w now).1 =
      .ok (some { n with
                    status := .running
                    attempts := n.attempts + 1
                    workerId := some w
                    startedAt := some now
                    updatedAt := now
                    errorMessage := "" }) := by
  have hsel := selectOldestQueued_append_single st n hq hn
  unfold claim_next_job
  rw [hsel]
  dsimp only
  have hmem : n ∈ st ++ [n] := List.mem_append_right _ (List.mem_cons_self _ _)
  rw [if_neg (claimRowcount_ne_zero _ n hmem hn)]
  dsimp only
  unfold dbGet
  rw [List.map_append]
  rw [find?_append_of_forall_neg (st.map (claimRow n.id w now)) _ ?hneg]
  · rw [show (List.map (claimRow n.id w now) [n]) = [claimRow n.id w now n] from rfl]
    rw [List.find?_cons_of_pos _ (by simp [claimRow_id])]
    unfold claimRow
    rw [if_pos ⟨rfl, hn⟩]
  case hneg =>
    intro x hx
    obtain ⟨j₀, hj₀, rfl⟩ := List.mem_map.mp hx
    simp [claimRow_id, hfresh j₀ hj₀]

/-- Claim C1: claimNext selects the oldest queued job and transitions it to
running through the single conditional update guarded by (id AND
status=queued), setting attempts+1, worker_id and started_at; enqueue
followed by claimNext(w) on a store with no other queued job yields that job
with status running, attempts 1 and worker_id w; and whenever the conditional
update matches zero rows (a lost race against another worker), claimNext
returns none, leaves the store unchanged and never raises. -/
theorem claim_next_job_spec :
    (∀ (st : JobStore) (p : EnqueueParams) (enqNow claimNow : Int) (w : String),
      (∀ j ∈ st, ¬ j.status = .queued) →
      (claim_next_job (enqueue_job st p enqNow).2 (enqueue_job st p enqNow).2 w claimNow).1 =
        .ok (some { (enqueue_job st p enqNow).1 with
                      status := .running
                      attempts := 1
                      workerId := some w
                      startedAt := some claimNow
                      updatedAt := claimNow
                      errorMessage := "" }))
  ∧ (∀ (stSel stUpd : JobStore) (w : String) (now : Int) (c : Job),
      selectOldestQueued stSel = some c →
      (∀ j ∈ stUpd, ¬ (j.id = c.id ∧ j.status = .queued)) →
      claim_next_job stSel stUpd w now = (.ok none, stUpd))
  ∧ (∀ (stSel stUpd : JobStore) (w : String) (now : Int),
      ∃ r, (claim_next_job stSel stUpd w now).1 = .ok r)
  ∧ (∀ (st : JobStore) (w : String) (now : Int) (j : Job),
      (st.map Job.id).Nodup →
      (claim_next_job st st w now).1 = .ok (some j) →
      ∃ c, selectOldestQueued st = some c ∧ c.status = .queued ∧
        (∀ k ∈ st, k.status = .queued → c.createdAt ≤ k.createdAt) ∧
        j.status = .running ∧ j.attempts = c.attempts + 1 ∧ j.workerId = some w ∧
        j.startedAt = some now) := by
  refine ⟨?_, ?_, ?_, ?_⟩
  · intro st p enqNow claimNow w hq
    exact claim_next_job_append_fresh st (enqueue_job st p enqNow).1 w claimNow hq rfl
      (fun j hj => Nat.ne_of_lt (id_lt_freshId st j hj))
  · intro stSel stUpd w now c hsel hrace
    have h0 : claimRowcount stUpd c.id = 0 :=
      List.countP_eq_zero.mpr (fun j hj => by
        simp only [decide_eq_true_eq]
        exact hrace j hj)
    unfold claim_next_job
    rw [hsel]
    dsimp only
    rw [if_pos h0]
  · intro stSel stUpd w now
    unfold claim_next_job
    cases hsel : selectOldestQueued stSel with
    | none => exact ⟨none, rfl⟩
    | some c =>
      dsimp only
      by_cases h0 : claimRowcount stUpd c.id = 0
      · rw [if_pos h0]; exact ⟨none, rfl⟩
      · rw [if_neg h0]; exact ⟨_, rfl⟩
  · intro st w now j hnd h
    obtain ⟨c, hsel, hcq, rfl⟩ := claim_next_job_ok_eq st w now j hnd h
    exact ⟨c, hsel, hcq, selectOldestQueued_min st c hsel, rfl, rfl, rfl, rfl⟩

/-- Witness for claim C1: a concrete enqueue-then-claim run and a concrete
lost race where the selected job was already claimed by another worker. -/
theorem claim_next_job_spec_witness :
    (claim_next_job (enqueue_job [] ⟨1, 3, none, "tester", 1⟩ 10).2
        (enqueue_job [] ⟨1, 3, none, "tester", 1⟩ 10).2 "worker-a" 11).1 =
      .ok (some { (enqueue_job [] ⟨1, 3, none, "tester", 1⟩ 10).1 with
                    status := .running
                    attempts := 1
                    workerId := some "worker-a"
                    startedAt := some 11
                    updatedAt := 11
                    errorMessage := "" }) ∧
    claim_next_job [baseJob] [{ baseJob with status := .running }] "worker-b" 5 =
      (.ok none, [{ baseJob with status := .running }]) := by
  refine ⟨claim_next_job_spec.1 [] ⟨1, 3, none, "tester", 1⟩ 10 11 "worker-a" (by simp), ?_⟩
  exact claim_next_job_spec.2.1 [baseJob] [{ baseJob with status := .running }] "worker-b" 5
    baseJob rfl (by decide)

/-- Claim C10: a successful claim resets error_message to the empty string —
erasing any reason recorded by an earlier retryable markFailed or stale
recovery — and it is the only recorded history field the claim clears: the
processed/created/merged counters, the merged pr ids, and the finished and
canceled timestamps of the claimed row are untouched. -/
theorem claim_next_job_frame (st : JobStore) (w : String) (now : Int) (j : Job)
    (hnd : (st.map Job.id).Nodup)
    (h : (claim_next_job st st w now).1 = .ok (some j)) :
    ∃ c, selectOldestQueued st = some c ∧
      j.errorMessage = "" ∧
      j.processedItems = c.processedItems ∧
      j.createdPrs = c.createdPrs ∧
      j.mergedPrs = c.mergedPrs ∧
      j.mergedPrIdsJson = c.mergedPrIdsJson ∧
      j.finishedAt = c.finishedAt ∧
      j.canceledAt = c.canceledAt ∧
      j.maxItems = c.maxItems ∧
      j.maxAttempts = c.maxAttempts ∧
      j.provider = c.provider ∧
      j.requestedBy = c.requestedBy ∧
      j.createdAt = c.createdAt := by
  obtain ⟨c, hsel, _, rfl⟩ := claim_next_job_ok_eq st w now j hnd h
  exact ⟨c, hsel, rfl, rfl, rfl, rfl, rfl, rfl, rfl, rfl, rfl, rfl, rfl, rfl⟩

/-- Witness for claim C10: claiming a requeued job that carries a recorded
failure reason and non-zero result counters erases only the reason. -/
theorem claim_next_job_frame_witness :
    ∃ c,
      selectOldestQueued
        [{ baseJob with
             errorMessage := "deadline exceeded"
             attempts := 1
             maxAttempts := 3
             processedItems := 2
             createdPrs := 2
             mergedPrs := 1
             mergedPrIdsJson := "[7]" }] = some c ∧
      ({ baseJob with
           status := .running
           attempts := 2
           maxAttempts := 3
           workerId := some "worker-c"
           startedAt := some 5
           updatedAt := 5
           processedItems := 2
           createdPrs := 2
           mergedPrs := 1
           mergedPrIdsJson := "[7]" } : Job).errorMessage = "" ∧
      ({ baseJob with
           status := .running
           attempts := 2
           maxAttempts := 3
           workerId := some "worker-c"
           startedAt := some 5
           updatedAt := 5
           processedItems := 2
           createdPrs := 2
           mergedPrs := 1
           mergedPrIdsJson := "[7]" } : Job).processedItems = c.processedItems ∧
      ({ baseJob with
           status := .running
           attempts := 2
           maxAttempts := 3
           workerId := some "worker-c"
           startedAt := some 5
           updatedAt := 5
           processedItems := 2
           createdPrs := 2
           mergedPrs := 1
           mergedPrIdsJson := "[7]" } : Job).createdPrs = c.createdPrs ∧
      ({ baseJob with
           status := .running
           attempts := 2
           maxAttempts := 3
           workerId := some "worker-c"
           startedAt := some 5
           updatedAt := 5
           processedItems := 2
           createdPrs := 2
           mergedPrs := 1
           mergedPrIdsJson := "[7]" } : Job).mergedPrs = c.mergedPrs ∧
      ({ baseJob with
           status := .running
           attempts := 2
           maxAttempts := 3
           workerId := some "worker-c"
           startedAt := some 5
           updatedAt := 5
           processedItems := 2
           createdPrs := 2
           mergedPrs := 1
           mergedPrIdsJson := "[7]" } : Job).mergedPrIdsJson = c.mergedPrIdsJson ∧
      ({ baseJob with
           status := .running
           attempts := 2
           maxAttempts := 3
           workerId := some "worker-c"
           startedAt := some 5
           updatedAt := 5
           processedItems := 2
           createdPrs := 2
           mergedPrs := 1
           mergedPrIdsJson := "[7]" } : Job).finishedAt = c.finishedAt ∧
      ({ baseJob with
           status := .running
           attempts := 2
           maxAttempts := 3
           workerId := some "worker-c"
           startedAt := some 5
           updatedAt := 5
           processedItems := 2
           createdPrs := 2
           mergedPrs := 1
           mergedPrIdsJson := "[7]" } : Job).canceledAt = c.canceledAt ∧
      ({ baseJob with
           status := .running
           attempts := 2
           maxAttempts := 3
           workerId := some "worker-c"
           startedAt := some 5
           updatedAt := 5
           processedItems := 2
           createdPrs := 2
           mergedPrs := 1
           mergedPrIdsJson := "[7]" } : Job).maxItems = c.maxItems ∧
      ({ baseJob with
           status := .running
           attempts := 2
           maxAttempts := 3
           workerId := some "worker-c"
           startedAt := some 5
           updatedAt := 5
           processedItems := 2
           createdPrs := 2
           mergedPrs := 1
           mergedPrIdsJson := "[7]" } : Job).maxAttempts = c.maxAttempts ∧
      ({ baseJob with
           status := .running
           attempts := 2
           maxAttempts := 3
           workerId := some "worker-c"
           startedAt := some 5
           updatedAt := 5
           processedItems := 2
           createdPrs := 2
           mergedPrs := 1
           mergedPrIdsJson := "[7]" } : Job).provider = c.provider ∧
      ({ baseJob with
           status := .running
           attempts := 2
           maxAttempts := 3
           workerId := some "worker-c"
           startedAt := some 5
           updatedAt := 5
           processedItems := 2
           createdPrs := 2
           mergedPrs := 1
           mergedPrIdsJson := "[7]" } : Job).requestedBy = c.requestedBy ∧
      ({ baseJob with
           status := .running
           attempts := 2
           maxAttempts := 3
           workerId := some "worker-c"
           startedAt := some 5
           updatedAt := 5
           processedItems := 2
           createdPrs := 2
           mergedPrs := 1
           mergedPrIdsJson := "[7]" } : Job).createdAt = c.createdAt :=
  claim_next_job_frame
    [{ baseJob with
         errorMessage := "deadline exceeded"
         attempts := 1
         maxAttempts := 3
         processedItems := 2
         createdPrs := 2
         mergedPrs := 1
         mergedPrIdsJson := "[7]" }] "worker-c" 5 _ (by decide) rfl

/-- Claim C4: for every existing job, markFailed requeues it — status queued,
worker_id cleared, bounded error message recorded — exactly when retryable
holds, attempts < max_attempts and the status is not canceled; in every other
case it marks the job terminally failed with finished_at set and the same
bounded message. -/
theorem mark_failed_spec (st : JobStore) (jobId : Nat) (msg : String) (retryable : Bool)
    (now : Int) (job : Job) (hfind : dbGet st jobId = some job) :
    ∃ j', (mark_failed st jobId msg retryable now).1 = some j' ∧
      ((retryable = true ∧ job.attempts < job.maxAttempts ∧ ¬ job.status = .canceled) →
        j'.status = .queued ∧ j'.workerId = none ∧
        j'.errorMessage = pyTake (if msg = "" then "Job execution failed" else msg) 3000 ∧
        j'.finishedAt = job.finishedAt ∧ j'.attempts = job.attempts) ∧
      (¬ (retryable = true ∧ job.attempts < job.maxAttempts ∧ ¬ job.status = .canceled) →
        j'.status = .failed ∧ j'.finishedAt = some now ∧
        j'.errorMessage = pyTake (if msg = "" then "Job execution failed" else msg) 3000) := by
  unfold mark_failed
  rw [hfind]
  dsimp only
  refine ⟨_, rfl, fun hc => ?_, fun hc => ?_⟩
  · rw [if_pos hc]
    exact ⟨rfl, rfl, rfl, rfl, rfl⟩
  · rw [if_neg hc]
    exact ⟨rfl, rfl, rfl⟩

/-- Witness for claim C4: with retryable true, a running job at
attempts 1 < max_attempts 3 is requeued, and one at attempts 2 = max_attempts 2
is terminally failed. -/
theorem mark_failed_spec_witness :
    (∃ j', (mark_failed [retryableJob] 1 "boom" true 7).1 = some j' ∧
      j'.status = .queued ∧ j'.workerId = none ∧
      j'.errorMessage = pyTake (if "boom" = "" then "Job execution failed" else "boom") 3000) ∧
    (∃ j', (mark_failed [exhaustedJob] 1 "boom" true 7).1 = some j' ∧
      j'.status = .failed ∧ j'.finishedAt = some 7) := by
  constructor
  · obtain ⟨j', hj, hpos, _⟩ := mark_failed_spec [retryableJob] 1 "boom" true 7 retryableJob rfl
    obtain ⟨h1, h2, h3, _, _⟩ := hpos ⟨rfl, by decide, by decide⟩
    exact ⟨j', hj, h1, h2, h3⟩
  · obtain ⟨j', hj, _, hneg⟩ := mark_failed_spec [exhaustedJob] 1 "boom" true 7 exhaustedJob rfl
    obtain ⟨h1, h2, _⟩ := hneg (by decide)
    exact ⟨j', hj, h1, h2⟩

/-- Claim C8: retry succeeds exactly from status failed or canceled, resetting
attempts, worker_id, the started/finished/canceled timestamps, the
processed/created/merged counters, the merged pr ids and the error message to
their initial values and setting status queued; from queued or running it
raises the invalid-state ValueError and leaves the store unchanged. -/
theorem retry_job_spec (st : JobStore) (projectId jobId : Nat) (now : Int) (job : Job)
    (hnd : (st.map Job.id).Nodup)
    (hfind : get_job st projectId jobId = some job) :
    ((job.status = .failed ∨ job.status = .canceled) →
      (retry_job st projectId jobId now).1 =
        .ok (some { job with
                      status := .queued
                      attempts := 0
                      workerId := none
                      startedAt := none
                      finishedAt := none
                      canceledAt := none
                      processedItems := 0
                      createdPrs := 0
                      mergedPrs := 0
                      mergedPrIdsJson := "[]"
                      errorMessage := ""
                      updatedAt := now }))
  ∧ ((job.status = .queued ∨ job.status = .running) →
      retry_job st projectId jobId now =
        (.error "Only failed or canceled jobs can be retried", st)) := by
  have hmem : job ∈ st := List.mem_of_find?_eq_some hfind
  have hpred := List.find?_some hfind
  simp only [Bool.and_eq_true, beq_iff_eq] at hpred
  obtain ⟨hjid, hpid⟩ := hpred
  subst hjid
  subst hpid
  constructor
  · intro hs
    unfold retry_job
    rw [hfind]
    dsimp only
    rw [if_neg (not_not_intro hs)]
    have hrc : st.countP (fun j => decide (j.id = job.id ∧ j.projectId = job.projectId ∧
        (j.status = .failed ∨ j.status = .canceled))) ≠ 0 := by
      intro h0
      have hall := List.countP_eq_zero.mp h0 job hmem
      simp only [decide_eq_true_eq, eq_self_iff_true, true_and] at hall
      exact hall hs
    rw [if_neg hrc]
    dsimp only
    unfold dbGet
    rw [find?_map_of_unique (retryResetRow job.projectId job.id now)
      (retryResetRow_id job.projectId job.id now) st job hmem hnd]
    unfold retryResetRow
    rw [if_pos ⟨rfl, rfl, hs⟩]
  · intro hqr
    have hnot : ¬ (job.status = .failed ∨ job.status = .canceled) := by
      rcases hqr with h | h <;> rw [h] <;> rintro (hx | hx) <;> cases hx
    unfold retry_job
    rw [hfind]
    dsimp only
    rw [if_pos hnot]

/-- Witness for claim C8: a failed job with recorded results is fully reset to
queued, and retrying a queued job raises the invalid-state error leaving the
store unchanged. -/
theorem retry_job_spec_witness :
    (retry_job [failedResultJob] 1 1 9).1 =
      .ok (some { failedResultJob with
                    status := .queued
                    attempts := 0
                    workerId := none
                    startedAt := none
                    finishedAt := none
                    canceledAt := none
                    processedItems := 0
                    createdPrs := 0
                    mergedPrs := 0
                    mergedPrIdsJson := "[]"
                    errorMessage := ""
                    updatedAt := 9 }) ∧
    retry_job [baseJob] 1 1 9 =
      (.error "Only failed or canceled jobs can be retried", [baseJob]) :=
  ⟨(retry_job_spec [failedResultJob] 1 1 9 failedResultJob (by decide) rfl).1 (Or.inl rfl),
   (retry_job_spec [baseJob] 1 1 9 baseJob (by decide) rfl).2 (Or.inl rfl)⟩

/-! ## Stale recovery refinement (claim C5) -/

theorem failStaleRow_requeueStaleRow (threshold now : Int) (err : String) (j : Job) :
    failStaleRow threshold now err (requeueStaleRow threshold now err j) =
      recoverRowSpec threshold now err j := by
  by_cases hs : j.status = .running
  · by_cases hst : staleStarted threshold j = true
    · by_cases hlt : j.attempts < j.maxAttempts
      · have h1 : requeueStaleRow threshold now err j =
            { j with
                status := .queued, workerId := none, startedAt := none, finishedAt := none,
                updatedAt := now, errorMessage := err } := by
          rw [requeueStaleRow, if_pos ⟨hs, hst, hlt⟩]
        rw [h1, failStaleRow, if_neg (fun h => nomatch h.1),
          recoverRowSpec, if_pos ⟨hs, hst⟩, if_pos hlt]
      · have hge : j.maxAttempts ≤ j.attempts := Nat.le_of_not_lt hlt
        have h1 : requeueStaleRow threshold now err j = j := by
          rw [requeueStaleRow, if_neg (fun h => hlt h.2.2)]
        rw [h1, failStaleRow, if_pos ⟨hs, hst, hge⟩,
          recoverRowSpec, if_pos ⟨hs, hst⟩, if_neg hlt]
    · have h1 : requeueStaleRow threshold now err j = j := by
        rw [requeueStaleRow, if_neg (fun h => hst h.2.1)]
      rw [h1, failStaleRow, if_neg (fun h => hst h.2.1),
        recoverRowSpec, if_neg (fun h => hst h.2)]
  · have h1 : requeueStaleRow threshold now err j = j := by
      rw [requeueStaleRow, if_neg (fun h => hs h.1)]
    rw [h1, failStaleRow, if_neg (fun h => hs h.1),
      recoverRowSpec, if_neg (fun h => hs h.1)]

theorem terminal_pred_requeueStaleRow (threshold now : Int) (err : String) (j : Job) :
    decide ((requeueStaleRow threshold now err j).status = .running ∧
        staleStarted threshold (requeueStaleRow threshold now err j) = true ∧
        (requeueStaleRow threshold now err j).maxAttempts ≤
          (requeueStaleRow threshold now err j).attempts) =
      decide (j.status = .running ∧ staleStarted threshold j = true ∧
        j.maxAttempts ≤ j.attempts) := by
  by_cases hc : j.status = .running ∧ staleStarted threshold j = true ∧
      j.attempts < j.maxAttempts
  · have h1 : requeueStaleRow threshold now err j =
        { j with
            status := .queued, workerId := none, startedAt := none, finishedAt := none,
            updatedAt := now, errorMessage := err } := by
      rw [requeueStaleRow, if_pos hc]
    rw [h1]
    exact decide_eq_decide.mpr
      ⟨(fun h => nomatch h.1),
       fun h => absurd h.2.2 (Nat.not_le.mpr hc.2.2)⟩
  · have h1 : requeueStaleRow threshold now err j = j := by
      rw [requeueStaleRow, if_neg hc]
    rw [h1]

theorem countP_failStale_map_requeue (threshold now : Int) (err : String) (st : JobStore) :
    (st.map (requeueStaleRow threshold now err)).countP
        (fun j => decide (j.status = .running ∧ staleStarted threshold j = true ∧
            j.maxAttempts ≤ j.attempts)) =
      st.countP (fun j => decide (j.status = .running ∧ staleStarted threshold j = true ∧
          j.maxAttempts ≤ j.attempts)) := by
  induction st with
  | nil => rfl
  | cons j rest ih =>
    simp only [List.map_cons, List.countP_cons, ih]
    rw [terminal_pred_requeueStaleRow]

theorem stale_row_contrib (threshold : Int) (j : Job) :
    (if decide (j.status = .running ∧ staleStarted threshold j = true ∧
        j.attempts < j.maxAttempts) = true then 1 else 0) +
    (if decide (j.status = .running ∧ staleStarted threshold j = true ∧
        j.maxAttempts ≤ j.attempts) = true then 1 else 0) =
    (if staleSpec threshold j = true then 1 else 0) := by
  by_cases hs : j.status = .running
  · by_cases hst : staleStarted threshold j = true
    · by_cases hlt : j.attempts < j.maxAttempts
      · have h2 : ¬ j.maxAttempts ≤ j.attempts := Nat.not_le.mpr hlt
        simp [staleSpec, hs, hst, hlt, h2]
      · have h2 : j.maxAttempts ≤ j.attempts := Nat.le_of_not_lt hlt
        simp [staleSpec, hs, hst, hlt, h2]
    · rw [Bool.not_eq_true] at hst
      simp [staleSpec, hs, hst]
  · simp [staleSpec, hs]

theorem countP_retry_add_terminal (threshold : Int) (st : JobStore) :
    st.countP (fun j => decide (j.status = .running ∧ staleStarted threshold j = true ∧
        j.attempts < j.maxAttempts)) +
    st.countP (fun j => decide (j.status = .running ∧ staleStarted threshold j = true ∧
        j.maxAttempts ≤ j.attempts)) =
    st.countP (staleSpec threshold) := by
  induction st with
  | nil => rfl
  | cons j rest ih =>
    simp only [List.countP_cons]
    have hrow := stale_row_contrib threshold j
    omega

theorem map_fail_map_requeue (threshold now : Int) (err : String) (st : JobStore) :
    (st.map (requeueStaleRow threshold now err)).map (failStaleRow threshold now err) =
      st.map (recoverRowSpec threshold now err) := by
  rw [List.map_map]
  exact List.map_congr_left (fun j _ => failStaleRow_requeueStaleRow threshold now err j)

/-- Claim C5 (amended): for every timeout > 0, recoverStaleRunning acts on
exactly the running jobs whose recorded started_at is at or before
now − timeout: those with attempts < max_attempts are requeued with worker_id
cleared and the reason recorded, those with attempts ≥ max_attempts are
terminally failed with the same reason; every other row is unchanged, and the
returned count is the number of jobs acted on. -/
theorem recover_stale_running_jobs_amended (st : JobStore) (timeout now : Int)
    (hpos : 0 < timeout) :
    recover_stale_running_jobs st timeout now =
      (st.countP (staleSpec (now - timeout)),
        st.map (recoverRowSpec (now - timeout) now (staleErrorMessage timeout))) ∧
    (∀ j ∈ st, staleSpec (now - timeout) j = false →
      recoverRowSpec (now - timeout) now (staleErrorMessage timeout) j = j) := by
  constructor
  · unfold recover_stale_running_jobs
    rw [if_neg (by omega : ¬ timeout ≤ 0)]
    dsimp only
    rw [countP_failStale_map_requeue, map_fail_map_requeue, countP_retry_add_terminal]
  · intro j _ hns
    unfold recoverRowSpec
    rw [if_neg]
    rintro ⟨h1, h2⟩
    rw [staleSpec, h1, h2] at hns
    simp at hns

/-- Witness for claim C5 (amended): a store with a stale retryable job, a
stale exhausted job and a fresh running one, at timeout 60 and now 1000. -/
theorem recover_stale_running_jobs_amended_witness :
    recover_stale_running_jobs [staleRetryJob, staleTerminalJob, freshRunningJob] 60 1000 =
      ([staleRetryJob, staleTerminalJob, freshRunningJob].countP (staleSpec (1000 - 60)),
        [staleRetryJob, staleTerminalJob, freshRunningJob].map
          (recoverRowSpec (1000 - 60) 1000 (staleErrorMessage 60))) :=
  (recover_stale_running_jobs_amended [staleRetryJob, staleTerminalJob, freshRunningJob]
    60 1000 (by decide)).1

/-! ## Per-item merge gate (claim C7) -/

/-- Claim C7 counterexample: with every policy flag on, an approving reviewer
and tester, passing checks — so merge_allowed holds — a git merge failure
leaves the pull request open, the item in review and the branch unmerged:
the branch is not merged exactly when merge_allowed holds. -/
theorem run_item_merge_claim_counterexample :
    ∃ r, run_item "main" itemC7 groupedAgents defaultPolicy envMergeFails = .completed r ∧
      mergeGate defaultPolicy r.pr r.reviews = true ∧
      r.merged = false ∧ r.itemStatus = .review ∧ r.pr.status = .open_ := by
  refine ⟨_, rfl, rfl, rfl, rfl, rfl⟩

/-- Claim C7 (amended): when a coder is assigned and the commit succeeds, the
pipeline completes with a pull request whose checks_passed is the validation
verdict and auto_merge is true, and with the reviews of this cycle; the merge
gate is the stated formula over those reviews; when the gate fails the item
moves to review with the pull request left open and the branch unmerged; when
the gate holds, the branch is merged — pull request merged, item done —
exactly when the git merge succeeds, a merge failure leaving the item in
review with the pull request open. -/
theorem run_item_merge_gate_spec (defaultBranch : String) (item : WorkItem)
    (grouped : AgentRole → List Agent) (policy : AutomationPolicy) (env : ItemPipelineEnv)
    (coder : Agent) (hc : item.assignedAgent = some coder)
    (g : GitExecutionResult) (hg : env.commitResult = .ok g) :
    ∃ r, run_item defaultBranch item grouped policy env = .completed r ∧
      r.pr.checksPassed = env.validation.1 ∧
      r.pr.autoMerge = true ∧
      r.reviews = itemReviews grouped policy env env.validation.1 ∧
      (mergeGate policy r.pr r.reviews = false →
        r.merged = false ∧ r.itemStatus = .review ∧ r.pr.status = .open_) ∧
      (∀ e, env.mergeResult = .error e →
        r.merged = false ∧ r.itemStatus = .review ∧ r.pr.status = .open_) ∧
      (∀ sha, env.mergeResult = .ok sha → mergeGate policy r.pr r.reviews = true →
        r.merged = true ∧ r.itemStatus = .done ∧ r.pr.status = .merged) := by
  unfold run_item
  rw [hc]
  dsimp only
  rw [hg]
  dsimp only
  by_cases hma : mergeGate policy (itemPr defaultBranch item coder g env.validation.1)
      (itemReviews grouped policy env env.validation.1) = true
  · rw [if_pos hma]
    cases hm : env.mergeResult with
    | error e =>
      refine ⟨_, rfl, rfl, rfl, rfl, ?_, ?_, ?_⟩
      · intro h
        have h' : mergeGate policy (itemPr defaultBranch item coder g env.validation.1)
            (itemReviews grouped policy env env.validation.1) = false := h
        cases hma.symm.trans h'
      · intro e' _
        exact ⟨rfl, rfl, rfl⟩
      · intro sha hsha
        cases hsha
    | ok sha =>
      refine ⟨_, rfl, rfl, rfl, rfl, ?_, ?_, ?_⟩
      · intro h
        have h' : mergeGate policy (itemPr defaultBranch item coder g env.validation.1)
            (itemReviews grouped policy env env.validation.1) = false := h
        cases hma.symm.trans h'
      · intro e' he'
        cases he'
      · intro sha' _ _
        exact ⟨rfl, rfl, rfl⟩
  · rw [if_neg hma]
    refine ⟨_, rfl, rfl, rfl, rfl, ?_, ?_, ?_⟩
    · intro _
      exact ⟨rfl, rfl, rfl⟩
    · intro e _
      exact ⟨rfl, rfl, rfl⟩
    · intro sha _ hgate
      have h' : mergeGate policy (itemPr defaultBranch item coder g env.validation.1)
          (itemReviews grouped policy env env.validation.1) = true := hgate
      exact absurd h' hma

/-- Witness for claim C7 (amended): the all-success pipeline environment where
the gate holds and the git merge succeeds. -/
theorem run_item_merge_gate_spec_witness :
    ∃ r, run_item "main" itemC7 groupedAgents defaultPolicy envMergeOk = .completed r ∧
      r.pr.checksPassed = envMergeOk.validation.1 ∧
      r.pr.autoMerge = true ∧
      r.reviews = itemReviews groupedAgents defaultPolicy envMergeOk envMergeOk.validation.1 ∧
      (mergeGate defaultPolicy r.pr r.reviews = false →
        r.merged = false ∧ r.itemStatus = .review ∧ r.pr.status = .open_) ∧
      (∀ e, envMergeOk.mergeResult = .error e →
        r.merged = false ∧ r.itemStatus = .review ∧ r.pr.status = .open_) ∧
      (∀ sha, envMergeOk.mergeResult = .ok sha → mergeGate defaultPolicy r.pr r.reviews = true →
        r.merged = true ∧ r.itemStatus = .done ∧ r.pr.status = .merged) :=
  run_item_merge_gate_spec "main" itemC7 groupedAgents defaultPolicy envMergeOk
    coderAgent rfl gitResultC7 rfl

/-! ## Objective splitting (claim C9) -/

theorem objective_items_get (projectId : Nat) (objective createdBy : String)
    (L : List String) (i : Nat)
    (hi : i < (L.enum.map
      (fun e => mkObjectiveItem projectId objective createdBy (e.1 + 1) e.2)).length) :
    (L.enum.map (fun e => mkObjectiveItem projectId objective createdBy (e.1 + 1) e.2)).get
        ⟨i, hi⟩ =
      mkObjectiveItem projectId objective createdBy (i + 1)
        (L.get ⟨i, by simpa using hi⟩) := by
  rw [List.get_eq_getElem, List.get_eq_getElem, List.getElem_map, List.getElem_enum]

/-- Claim C9 (amended): createWorkItemsFromObjective persists at most
max_items backlog items carrying the source objective; with policy.auto_triage
disabled the whole stripped text becomes the single segment; and the created
items get priority min(position, 5) — strictly increasing through the fifth
item and constant 5 afterwards, hence strictly increasing whenever at most
five items are created. -/
theorem create_work_items_from_objective_amended (policy : AutomationPolicy) (projectId : Nat)
    (objective : String) (maxWorkItems : Nat) (createdBy : String) :
    (create_work_items_from_objective policy projectId objective maxWorkItems createdBy).length
        ≤ maxWorkItems ∧
    (∀ it ∈ create_work_items_from_objective policy projectId objective maxWorkItems createdBy,
      it.status = .backlog ∧ it.sourceObjective = objective ∧ it.createdBy = createdBy) ∧
    (policy.auto_triage = false → 1 ≤ maxWorkItems →
      create_work_items_from_objective policy projectId objective maxWorkItems createdBy =
        [mkObjectiveItem projectId objective createdBy 1 (pyStrip objective)]) ∧
    (∀ i (hi : i < (create_work_items_from_objective policy projectId objective maxWorkItems
        createdBy).length),
      ((create_work_items_from_objective policy projectId objective maxWorkItems createdBy).get
          ⟨i, hi⟩).priority = min (i + 1) 5) ∧
    ((create_work_items_from_objective policy projectId objective maxWorkItems createdBy).length
        ≤ 5 →
      List.Chain' (· < ·)
        ((create_work_items_from_objective policy projectId objective maxWorkItems
          createdBy).map WorkItem.priority)) := by
  have hget : ∀ i (hi : i < (create_work_items_from_objective policy projectId objective
      maxWorkItems createdBy).length),
      ((create_work_items_from_objective policy projectId objective maxWorkItems createdBy).get
          ⟨i, hi⟩).priority = min (i + 1) 5 := by
    intro i hi
    unfold create_work_items_from_objective at hi ⊢
    dsimp only at hi ⊢
    rw [objective_items_get]
    rfl
  refine ⟨?_, ?_, ?_, hget, ?_⟩
  · unfold create_work_items_from_objective
    dsimp only
    rw [List.length_map, List.enum_length, List.length_take]
    exact min_le_left _ _
  · intro it hit
    unfold create_work_items_from_objective at hit
    dsimp only at hit
    obtain ⟨e, _, rfl⟩ := List.mem_map.mp hit
    exact ⟨rfl, rfl, rfl⟩
  · intro hoff hmax
    unfold create_work_items_from_objective
    dsimp only
    rw [hoff]
    rw [if_neg Bool.false_ne_true]
    rw [List.take_of_length_le (by simpa using hmax)]
    rfl
  · intro h5
    rw [List.chain'_iff_get]
    intro i hilen
    rw [List.length_map] at hilen
    have h1 := hget i (by omega)
    have h2 := hget (i + 1) (by omega)
    simp only [List.get_eq_getElem, List.getElem_map] at h1 h2 ⊢
    omega

/-- Witness for claim C9 (amended): with auto_triage disabled the whole text
becomes one backlog item, and a three-sentence objective under the default
policy receives strictly increasing priorities. -/
theorem create_work_items_from_objective_amended_witness :
    create_work_items_from_objective noTriagePolicy 1 "Fix a. Fix b. Fix c" 3 "ops" =
      [mkObjectiveItem 1 "Fix a. Fix b. Fix c" "ops" 1 (pyStrip "Fix a. Fix b. Fix c")] ∧
    List.Chain' (· < ·)
      ((create_work_items_from_objective defaultPolicy 1 "Fix a. Fix b. Fix c" 3 "system").map
        WorkItem.priority) := by
  constructor
  · exact (create_work_items_from_objective_amended noTriagePolicy 1 "Fix a. Fix b. Fix c" 3
      "ops").2.2.1 rfl (by decide)
  · exact (create_work_items_from_objective_amended defaultPolicy 1 "Fix a. Fix b. Fix c" 3
      "system").2.2.2.2 (by decide)

end VibeHub
